import Mathlib

/-!
# ZipLink backend (`app.py`) — shallow embedding and verification

This file embeds the Flask URL-shortener `app.py` into Lean 4 and proves
properties of its handlers.  External collaborators are modelled explicitly:

* Firestore is an association list keyed by short code; `doc.set` overwrites,
  `update(Increment(1))` bumps the `clicks` field, `delete` is a no-op
  success when the document is absent (Firestore semantics).
* `random`, `werkzeug` password hashing, and `datetime.fromisoformat` are
  environment parameters (`Env`): a candidate-code stream, hash/check
  functions, and an ISO-8601 parser returning a possibly timezone-aware
  datetime.
* Python `datetime` values are `PyDt`: a wall-clock reading plus an optional
  UTC offset (`none` = naive).  `pytz` `IST.localize` attaches the +05:30
  offset to a naive datetime and raises `ValueError` on an aware one.
* Python truthiness of optional strings: `None` and `""` are falsy.
* Timestamps are integer instants; `isoformat` strings of datetimes sharing
  one fixed offset compare lexicographically exactly as their instants do,
  so list ordering is stated on the instants.
-/

/-- Models Python `str.lower` on one character for the alias checks: it
lowers ASCII `A`-`Z` and U+212A KELVIN SIGN (codepoint 8490) — the only
codepoint outside `A`-`Z` whose Python lowercase is an ASCII letter,
namely `k` — and fixes every other character.  Characters whose real
Python lowercase differs from this (for example U+0130, which expands to
`i` followed by combining U+0307) never lower into the alias character
class, so the line-72 regex verdict, and the lower-cased string itself on
every accepted input, agree with Python. -/
def pyCharLower (c : Char) : Char :=
  if 65 ≤ c.toNat ∧ c.toNat ≤ 90 then Char.ofNat (c.toNat + 32)
  else if c.toNat = 8490 then 'k'
  else c

/-- Models Python `str.lower` (character-to-character; see
`pyCharLower` for the fidelity argument). -/
def pyLower (s : String) : String :=
  ⟨s.data.map pyCharLower⟩

/-- Python `len` on a string (number of characters). -/
def pyLen (s : String) : Nat :=
  s.data.length

/-- One character of the custom-alias character class `[a-z0-9_-]`
(codepoints: `a`-`z` are 97-122, `0`-`9` are 48-57, `-` is 45, `_` is
95). -/
def aliasChar (c : Char) : Bool :=
  (decide (97 ≤ c.toNat) && decide (c.toNat ≤ 122)) ||
  (decide (48 ≤ c.toNat) && decide (c.toNat ≤ 57)) ||
  (c == '-') || (c == '_')

/-- After one class character has been consumed, the rest of a string
accepted by Python `re.match` of `^[a-z0-9_-]+$`: class characters, with
one trailing newline allowed (Python `$` also matches just before a
newline that ends the string). -/
def aliasTail : List Char → Bool
  | [] => true
  | c :: rest => if c = '\n' then rest.isEmpty else aliasChar c && aliasTail rest

/-- Python `re.match` against `^[a-z0-9_-]+$` (line 72 of `app.py`): at
least one character of the class, then class characters, and `$` accepts
the true end of the string or the position before one final newline — so
`abc` and `abc\n` match, while `\n`, `ab\nc` and `ab\n\n` do not. -/
def matchesAliasRe (s : String) : Bool :=
  match s.data with
  | [] => false
  | c :: rest => aliasChar c && aliasTail rest

/-- `RESERVED_ALIASES` (lines 31-33 of `app.py`). -/
def RESERVED_ALIASES : List String :=
  ["app", "shorten", "login", "signup", "auth", "admin", "dashboard",
   "static", "api", "help", "verify_password"]

/-- Python `x in RESERVED_ALIASES` (case-sensitive membership). -/
def isReserved (s : String) : Bool :=
  RESERVED_ALIASES.contains s

/-- `BASE_URL` (line 17 of `app.py`). -/
def BASE_URL : String := "http://localhost:5000"

/-- The fixed UTC offset of `pytz.timezone("Asia/Kolkata")`, in seconds
(+05:30). -/
def istOffset : Int := 19800

/-- A Python `datetime`: a wall-clock instant plus an optional UTC offset in
seconds (`tz = none` means a naive datetime). -/
structure PyDt where
  wall : Int
  tz : Option Int
deriving Repr, DecidableEq

/-- The UTC instant denoted by an aware datetime (wall reading minus
offset); on a naive value this reads the wall clock directly. -/
def PyDt.utcInstant (d : PyDt) : Int :=
  d.wall - d.tz.getD 0

/-- `pytz` `IST.localize`: attaches the IST offset to a naive datetime;
raises `ValueError` (modelled as `none`) when the datetime is already
timezone-aware. -/
def istLocalize (d : PyDt) : Option PyDt :=
  match d.tz with
  | none => some { wall := d.wall, tz := some istOffset }
  | some _ => none

/-- Python truthiness of an optional string: `None` and `""` are falsy. -/
def truthy : Option String → Bool
  | none => false
  | some s => !(s == "")

/-- One stored link document (the fields written by `shorten_url`,
lines 102-114 of `app.py`).  `created_at` is kept as the UTC instant of
`datetime.now(IST)`. -/
structure Link where
  long_url : String
  short_code : String
  user_id : Option String
  clicks : Nat
  created_at : Int
  password_hash : Option String
  is_protected : Bool
  expires_at : Option PyDt := none
deriving Repr, DecidableEq

/-- The Firestore `links` collection: documents keyed by short code. -/
abbrev Store : Type := List (String × Link)

/-- `db.collection("links").document(k).get()`. -/
def dbGet : Store → String → Option Link
  | [], _ => none
  | (k, v) :: rest, key => if k = key then some v else dbGet rest key

/-- Drop every binding of key `k` (the collection is keyed, so at most one
exists in well-formed states). -/
def eraseKey : Store → String → Store
  | [], _ => []
  | (k, v) :: rest, key =>
    if k = key then eraseKey rest key else (k, v) :: eraseKey rest key

/-- `doc_ref.set(data)`: create or overwrite the document at `k`. -/
def storeSet (st : Store) (k : String) (v : Link) : Store :=
  (k, v) :: eraseKey st k

/-- `doc_ref.update(clicks = firestore.Increment(1))` at key `k`. -/
def incClicks : Store → String → Store
  | [], _ => []
  | (k, v) :: rest, key =>
    if k = key then (k, { v with clicks := v.clicks + 1 }) :: incClicks rest key
    else (k, v) :: incClicks rest key

/-- `doc_ref.delete()`: removes the document when present; Firestore treats
deletion of an absent document as a success. -/
def dbDelete (st : Store) (k : String) : Store :=
  eraseKey st k

/-- `is_short_code_available` (lines 39-41 of `app.py`). -/
def is_short_code_available (st : Store) (code : String) : Bool :=
  (dbGet st code).isNone

/-- The ambient effectful collaborators of one request: the current UTC
instant, the stream of candidate codes drawn by `generate_random_code`
(6 random alphanumeric characters per call), `werkzeug`
`generate_password_hash` / `check_password_hash`, and
`datetime.fromisoformat` (`none` = `ValueError`). -/
structure Env where
  nowUtc : Int
  randGen : Nat → String
  genHash : String → String
  checkHash : String → String → Bool
  parseIso : String → Option PyDt

/-- The `while True` retry loop of lines 81-84: starting with the `i`-th
draw of the candidate stream and allowed `fuel` further draws, return the
first candidate that is neither reserved (case-sensitive check) nor already
present in storage.  The Python loop is this with unlimited fuel. -/
def pickCodeFrom (env : Env) (st : Store) (i : Nat) : Nat → Option String
  | 0 => none
  | fuel + 1 =>
    let c := env.randGen i
    if !(isReserved c) && is_short_code_available st c then some c
    else pickCodeFrom env st (i + 1) fuel

/-- The JSON body accepted by `POST /shorten`. -/
structure ShortenReq where
  longUrl : Option String := none
  customAlias : Option String := none
  linkPassword : Option String := none
  userId : Option String := none
  expirationDate : Option String := none
deriving Repr, DecidableEq

/-- Outcome of `shorten_url`; `outOfFuel` marks a run of the retry loop
that has not yet found a candidate (the Python loop would still be
spinning). -/
inductive ShortenResult where
  | badRequest (msg : String)
  | conflict (msg : String)
  | ok (shortUrl : String) (isProtected : Bool)
  | outOfFuel
deriving Repr, DecidableEq

/-- Lines 91-99 of `app.py`: parse `expirationDate` when present and
truthy; `datetime.fromisoformat` failure or `IST.localize` on an aware
datetime raises `ValueError`, answered with the 400 branch (`.error`). -/
def parseExpiration (env : Env) (s : Option String) : Except Unit (Option PyDt) :=
  if truthy s then
    match env.parseIso (s.getD "") with
    | none => .error ()
    | some dt =>
      match istLocalize dt with
      | none => .error ()
      | some aware => .ok (some aware)
  else
    .ok none

/-- Lines 86-123 of `app.py`: hash the password, parse the expiration,
build the document and `set` it, then return the short URL and protection
flag. -/
def finishCreate (env : Env) (st : Store) (d : ShortenReq) (long_url short_code : String) :
    ShortenResult × Store :=
  let password_hash :=
    if truthy d.linkPassword then some (env.genHash (d.linkPassword.getD "")) else none
  match parseExpiration env d.expirationDate with
  | .error _ => (.badRequest "Invalid expiration date format.", st)
  | .ok expOpt =>
    let link_data : Link :=
      { long_url := long_url
        short_code := short_code
        user_id := d.userId
        clicks := 0
        created_at := env.nowUtc
        password_hash := password_hash
        is_protected := truthy d.linkPassword
        expires_at := expOpt }
    (.ok (BASE_URL ++ "/" ++ short_code) (truthy d.linkPassword),
      storeSet st short_code link_data)

/-- `shorten_url` (lines 48-127 of `app.py`).  `data = none` models a body
that is not valid JSON; `fuel` bounds the random retry loop. -/
def shorten_url (env : Env) (fuel : Nat) (st : Store) (data : Option ShortenReq) :
    ShortenResult × Store :=
  match data with
  | none => (.badRequest "Request body must be valid JSON", st)
  | some d =>
    if !(truthy d.longUrl) then (.badRequest "longUrl is required", st)
    else
      let long_url := d.longUrl.getD ""
      if truthy d.customAlias then
        let short_code := pyLower (d.customAlias.getD "")
        if !(matchesAliasRe short_code) then
          (.badRequest "Custom alias can only contain lowercase letters, numbers, hyphens, and underscores.", st)
        else if isReserved short_code then
          (.badRequest ("The alias /" ++ short_code ++ " is reserved and cannot be used. Please choose another."), st)
        else if pyLen short_code < 3 then
          (.badRequest "Custom alias must be at least 3 characters long.", st)
        else if !(is_short_code_available st short_code) then
          (.conflict ("The custom alias /" ++ short_code ++ " is already taken. Please choose another."), st)
        else
          finishCreate env st d long_url short_code
      else
        match pickCodeFrom env st 0 fuel with
        | none => (.outOfFuel, st)
        | some short_code => finishCreate env st d long_url short_code

/-- The JSON body accepted by `POST /verify_password`. -/
structure VerifyReq where
  shortCode : Option String := none
  password : Option String := none
deriving Repr, DecidableEq

/-- Outcome of `verify_password`; `crash` is the unhandled
`AttributeError` raised on `None.get` when the body is not valid JSON
(surfaced by Flask as HTTP 500). -/
inductive VerifyResult where
  | crash
  | badRequest (msg : String)
  | notFound (msg : String)
  | invalidPassword
  | ok (longUrl : String)
deriving Repr, DecidableEq

/-- `verify_password` (lines 131-158 of `app.py`).  Note: no expiration
check is performed on this path. -/
def verify_password (env : Env) (st : Store) (data : Option VerifyReq) :
    VerifyResult × Store :=
  match data with
  | none => (.crash, st)
  | some d =>
    if !(truthy d.shortCode) || !(truthy d.password) then
      (.badRequest "Missing short code or password.", st)
    else
      let sc := d.shortCode.getD ""
      match dbGet st sc with
      | some link_data =>
        if truthy link_data.password_hash &&
            env.checkHash (link_data.password_hash.getD "") (d.password.getD "") then
          (.ok link_data.long_url, incClicks st sc)
        else
          (.invalidPassword, st)
      | none => (.notFound "Link not found.", st)

/-- Body of `render_expired_page` (abbreviated HTML; the load-bearing part
is the tuple shape below). -/
def expiredHtml : String :=
  "<html><body><h1>Link Has Expired</h1><p>Sorry, the link you are trying to access is no longer active.</p></body></html>"

/-- `render_expired_page` (lines 328-347 of `app.py`): returns the pair
`(html, 410)` — already a Flask body/status tuple. -/
def render_expired_page : String × Nat :=
  (expiredHtml, 410)

/-- `render_password_gateway` (lines 200-324, abbreviated): the gateway
HTML with the short code substituted in. -/
def render_password_gateway (short_code : String) : String :=
  "<html>ZipLink Protected Access gateway for /" ++ short_code ++ "</html>"

/-- Return value of `redirect_to_long_url` as the Python function yields
it.  `expiredNested page status` is the literal
`return render_expired_page(), 410`: the already-paired page next to a
second status code. -/
inductive RedirectResult where
  | notFound
  | expiredNested (page : String × Nat) (status : Nat)
  | passwordGateway (html : String)
  | redirect (url : String)
deriving Repr, DecidableEq

/-- Lines 176-182 of `app.py`: the link has an `expires_at` field, made
aware by `IST.localize` when naive, and `datetime.now(IST)` is strictly
later than it. -/
def expiredNow (env : Env) (data : Link) : Bool :=
  match data.expires_at with
  | none => false
  | some e =>
    let aware : PyDt :=
      match e.tz with
      | none => { wall := e.wall, tz := some istOffset }
      | some _ => e
    decide (env.nowUtc > aware.utcInstant)

/-- `redirect_to_long_url` (lines 162-196 of `app.py`). -/
def redirect_to_long_url (env : Env) (st : Store) (short_code : String) :
    RedirectResult × Store :=
  if isReserved (pyLower short_code) then (.notFound, st)
  else
    match dbGet st short_code with
    | none => (.notFound, st)
    | some data =>
      if expiredNow env data then
        (.expiredNested render_expired_page 410, st)
      else if data.is_protected then
        (.passwordGateway (render_password_gateway short_code), st)
      else
        (.redirect data.long_url, incClicks st short_code)

/-- How Flask turns the return value of `redirect_to_long_url` into an
HTTP response.  A 2-tuple is unpacked as `(body, status)`; a body that is
itself a tuple is not a valid response type, so Flask raises `TypeError`,
surfaced as HTTP 500. -/
inductive HttpOutcome where
  | html (body : String) (status : Nat)
  | found302 (url : String)
  | notFound404
  | serverError500
deriving Repr, DecidableEq

/-- Flask response finalization for the redirect handler. -/
def flaskFinalize : RedirectResult → HttpOutcome
  | .notFound => .notFound404
  | .expiredNested _ _ => .serverError500
  | .passwordGateway h => .html h 200
  | .redirect u => .found302 u

/-- One row of the dashboard response of `get_user_links`
(lines 369-378 of `app.py`); `created_at` is kept as the instant whose
`isoformat` string is serialized (fixed-offset `isoformat` strings compare
lexicographically as their instants do). -/
structure LinkSummary where
  id : String
  long_url : String
  short_code : String
  short_url : String
  clicks : Nat
  created_at : Int
  expires_at : Option PyDt
  is_protected : Bool
deriving Repr, DecidableEq

/-- Projection of one stored document to its dashboard row. -/
def summarize (p : String × Link) : LinkSummary :=
  { id := p.1
    long_url := p.2.long_url
    short_code := p.2.short_code
    short_url := BASE_URL ++ "/" ++ p.2.short_code
    clicks := p.2.clicks
    created_at := p.2.created_at
    expires_at := p.2.expires_at
    is_protected := p.2.is_protected }

/-- The `key=created_at, reverse=True` ordering of line 380: newest
first. -/
def createdDesc (a b : LinkSummary) : Prop :=
  b.created_at ≤ a.created_at

instance : DecidableRel createdDesc :=
  fun a b => inferInstanceAs (Decidable (b.created_at ≤ a.created_at))

instance : IsTotal LinkSummary createdDesc :=
  ⟨fun a b => le_total b.created_at a.created_at⟩

instance : IsTrans LinkSummary createdDesc :=
  ⟨fun _ _ _ hab hbc => le_trans hbc hab⟩

/-- `get_user_links` (lines 351-386 of `app.py`): filter by `user_id`,
project, sort by `created_at` descending (`list.sort` is a stable sort;
modelled with insertion sort, identical up to tie order which the
serialization does not fix). -/
def get_user_links (st : Store) (uid : String) : List LinkSummary :=
  let docs := (st : List (String × Link)).filter (fun p => p.2.user_id == some uid)
  let links := docs.map summarize
  List.insertionSort createdDesc links

/-- Outcome of `delete_link`. -/
inductive DeleteResult where
  | ok (msg : String)
deriving Repr, DecidableEq

/-- `delete_link` (lines 389-401 of `app.py`).  Firestore document
deletion succeeds silently when the document is absent, so the
`NotFound` handler in the source is unreachable: the operation always
answers success. -/
def delete_link (st : Store) (short_code : String) : DeleteResult × Store :=
  (.ok ("Link " ++ short_code ++ " deleted successfully."), dbDelete st short_code)

/-- One externally triggered operation of the system. -/
inductive Op where
  | shortenOp (fuel : Nat) (data : Option ShortenReq)
  | verifyOp (data : Option VerifyReq)
  | redirectOp (code : String)
  | listOp (uid : String)
  | deleteOp (code : String)

/-- The store after one operation. -/
def applyOp (env : Env) (st : Store) : Op → Store
  | .shortenOp fuel data => (shorten_url env fuel st data).2
  | .verifyOp data => (verify_password env st data).2
  | .redirectOp code => (redirect_to_long_url env st code).2
  | .listOp _ => st
  | .deleteOp code => (delete_link st code).2

/-! ## Helper lemmas about the store and alias normalization -/

theorem pyCharLower_of_aliasChar (c : Char) (h : aliasChar c = true) :
    pyCharLower c = c := by
  unfold aliasChar at h
  simp only [Bool.or_eq_true, Bool.and_eq_true, decide_eq_true_eq, beq_iff_eq] at h
  have hr : (97 ≤ c.toNat ∧ c.toNat ≤ 122) ∨ (48 ≤ c.toNat ∧ c.toNat ≤ 57) ∨
      c.toNat = 45 ∨ c.toNat = 95 := by
    rcases h with ((⟨h1, h2⟩ | ⟨h1, h2⟩) | h3) | h3
    · exact Or.inl ⟨h1, h2⟩
    · exact Or.inr (Or.inl ⟨h1, h2⟩)
    · subst h3; exact Or.inr (Or.inr (Or.inl (by decide)))
    · subst h3; exact Or.inr (Or.inr (Or.inr (by decide)))
  have hn1 : ¬(65 ≤ c.toNat ∧ c.toNat ≤ 90) := by omega
  have hn2 : ¬(c.toNat = 8490) := by omega
  unfold pyCharLower
  rw [if_neg hn1, if_neg hn2]

theorem aliasTail_map_fix (l : List Char) (h : aliasTail l = true) :
    l.map pyCharLower = l := by
  induction l with
  | nil => rfl
  | cons c rest ih =>
    simp only [aliasTail] at h
    by_cases hc : c = '\n'
    · rw [if_pos hc] at h
      cases rest with
      | nil =>
        subst hc
        rfl
      | cons x xs => simp [List.isEmpty] at h
    · rw [if_neg hc] at h
      simp only [Bool.and_eq_true] at h
      simp only [List.map]
      rw [pyCharLower_of_aliasChar c h.1, ih h.2]

theorem pyLower_of_matches (s : String) (h : matchesAliasRe s = true) :
    pyLower s = s := by
  obtain ⟨l⟩ := s
  show String.mk (l.map pyCharLower) = String.mk l
  congr 1
  cases l with
  | nil => rfl
  | cons c rest =>
    have h2 : (aliasChar c && aliasTail rest) = true := h
    simp only [Bool.and_eq_true] at h2
    simp only [List.map]
    rw [pyCharLower_of_aliasChar c h2.1, aliasTail_map_fix rest h2.2]

theorem matchesAliasRe_ne_empty (s : String) (h : matchesAliasRe (pyLower s) = true) :
    s ≠ "" := by
  intro hs
  subst hs
  simp [pyLower, matchesAliasRe] at h

theorem dbGet_eraseKey (st : Store) (k key : String) :
    dbGet (eraseKey st k) key = if key = k then none else dbGet st key := by
  induction st with
  | nil => by_cases h : key = k <;> simp [eraseKey, dbGet, h]
  | cons a rest ih =>
    obtain ⟨ak, av⟩ := a
    by_cases hak : ak = k <;> by_cases hk : key = k <;> by_cases hky : ak = key <;>
      simp_all [eraseKey, dbGet]

theorem dbGet_storeSet (st : Store) (k key : String) (v : Link) :
    dbGet (storeSet st k v) key = if key = k then some v else dbGet st key := by
  unfold storeSet
  simp only [dbGet]
  by_cases hk : key = k
  · simp [hk]
  · have hkk : ¬(k = key) := fun hh => hk hh.symm
    rw [if_neg hkk, if_neg hk, dbGet_eraseKey, if_neg hk]

theorem dbGet_incClicks (st : Store) (k key : String) :
    dbGet (incClicks st k) key =
      if key = k then
        (dbGet st key).map (fun l => { l with clicks := l.clicks + 1 })
      else dbGet st key := by
  induction st with
  | nil => by_cases h : key = k <;> simp [incClicks, dbGet, h]
  | cons a rest ih =>
    obtain ⟨ak, av⟩ := a
    by_cases hak : ak = k <;> by_cases hk : key = k <;> by_cases hky : ak = key <;>
      simp_all [incClicks, dbGet]

theorem eraseKey_idem (st : Store) (k : String) :
    eraseKey (eraseKey st k) k = eraseKey st k := by
  induction st with
  | nil => rfl
  | cons a rest ih =>
    obtain ⟨ak, av⟩ := a
    by_cases hak : ak = k <;> simp_all [eraseKey]

theorem pickCodeFrom_sound (env : Env) (st : Store) :
    ∀ fuel i c, pickCodeFrom env st i fuel = some c →
      isReserved c = false ∧ dbGet st c = none := by
  intro fuel
  induction fuel with
  | zero => intro i c h; simp [pickCodeFrom] at h
  | succ n ih =>
    intro i c h
    simp only [pickCodeFrom] at h
    split at h
    · rename_i hcond
      cases h
      simp only [Bool.and_eq_true, Bool.not_eq_true'] at hcond
      refine ⟨hcond.1, ?_⟩
      have hav := hcond.2
      unfold is_short_code_available at hav
      exact Option.isNone_iff_eq_none.mp hav
    · exact ih (i + 1) c h

/-! ## Concrete instances used by witnesses and counterexamples -/

/-- A concrete environment with a constant candidate stream and a trivial
hash scheme. -/
def envPlain : Env :=
  { nowUtc := 50
    randGen := fun _ => "aaaaaa"
    genHash := fun p => String.append "hash:" p
    checkHash := fun h p => h == String.append "hash:" p
    parseIso := fun _ => none }

/-- Environment whose candidate stream always draws `Signup` (a legal
output of `generate_random_code`: 6 alphanumeric characters). -/
def envSignup : Env :=
  { nowUtc := 0
    randGen := fun _ => "Signup"
    genHash := fun p => p
    checkHash := fun _ _ => false
    parseIso := fun _ => none }

/-- Environment at instant 100 whose password check accepts exactly the
pair (hash `h1`, password `pw`). -/
def envVerify : Env :=
  { nowUtc := 100
    randGen := fun _ => "aaaaaa"
    genHash := fun p => p
    checkHash := fun h p => h == "h1" && p == "pw"
    parseIso := fun _ => none }

/-- A stored, expired (instant 0, aware, before now = 100),
password-protected link. -/
def linkProtExp : Link :=
  { long_url := "http://secret.example"
    short_code := "pex"
    user_id := none
    clicks := 0
    created_at := 0
    password_hash := some "h1"
    is_protected := true
    expires_at := some { wall := 0, tz := some 0 } }

/-- An unprotected stored link with no expiry. -/
def linkPlain : Link :=
  { long_url := "http://example.com"
    short_code := "aaaaaa"
    user_id := none
    clicks := 0
    created_at := 0
    password_hash := none
    is_protected := false
    expires_at := none }

/-! ## C9 -/

/-- C9: `delete_link` is idempotent: for every short code, whether or not a
record exists, the operation answers success, the end state has no record
under that code, and deleting again leaves the state unchanged. -/
theorem claim9_delete_idempotent (st : Store) (code : String) :
    (delete_link st code).1 = .ok ("Link " ++ code ++ " deleted successfully.") ∧
    dbGet (delete_link st code).2 code = none ∧
    (delete_link (delete_link st code).2 code).2 = (delete_link st code).2 := by
  refine ⟨rfl, ?_, ?_⟩
  · show dbGet (eraseKey st code) code = none
    rw [dbGet_eraseKey, if_pos rfl]
  · show eraseKey (eraseKey st code) code = eraseKey st code
    exact eraseKey_idem st code

/-! ## C10 -/

/-- C10: `Signup` is a possible 6-character alphanumeric random code whose
lower-casing `signup` is reserved; the case-sensitive reserved check in the
random-code loop accepts it, `shorten_url` persists a record under it, yet
`redirect_to_long_url` rejects `Signup` with NotFound for every store and
environment, because the resolve-side reserved check lower-cases first. -/
theorem claim10_unreachable_random_code :
    pyLower "Signup" = "signup" ∧
    isReserved "signup" = true ∧
    isReserved "Signup" = false ∧
    pyLen "Signup" = 6 ∧
    "Signup".data.all Char.isAlphanum = true ∧
    (shorten_url envSignup 1 [] (some { longUrl := some "http://example.com" })).1 =
      .ok (BASE_URL ++ "/" ++ "Signup") false ∧
    dbGet (shorten_url envSignup 1 [] (some { longUrl := some "http://example.com" })).2
        "Signup" =
      some { long_url := "http://example.com", short_code := "Signup", user_id := none,
             clicks := 0, created_at := 0, password_hash := none, is_protected := false,
             expires_at := none } ∧
    (∀ (env : Env) (st : Store), (redirect_to_long_url env st "Signup").1 = .notFound) := by
  refine ⟨by decide, by decide, by decide, by decide, by decide, rfl, rfl, ?_⟩
  intro env st
  have h : isReserved (pyLower "Signup") = true := by decide
  simp [redirect_to_long_url, h]

/-! ## C5 -/

/-- C5 (code bug): on an expired link the handler body takes the
expiration branch before the password gate and without a click increment,
but the value it hands to Flask is `(render_expired_page(), 410)` where
`render_expired_page()` is already the pair `(html, 410)`; the nested
tuple is not a valid Flask response body, so the request ends in an HTTP
500 TypeError rather than the intended 410 page. -/
theorem claim5_expired_response_bug :
    (redirect_to_long_url envVerify [("pex", linkProtExp)] "pex").1 =
      .expiredNested (expiredHtml, 410) 410 ∧
    flaskFinalize (.expiredNested (expiredHtml, 410) 410) = .serverError500 ∧
    (redirect_to_long_url envVerify [("pex", linkProtExp)] "pex").2 =
      [("pex", linkProtExp)] ∧
    RedirectResult.expiredNested (expiredHtml, 410) 410 ≠ .notFound := by
  refine ⟨rfl, rfl, rfl, by decide⟩

/-! ## Characterizing the custom-alias path of `shorten_url` -/

theorem shorten_custom_ok (env : Env) (fuel : Nat) (st : Store) (d : ShortenReq)
    (a lu : String)
    (hlu : d.longUrl = some lu) (hlu2 : lu ≠ "")
    (ha : d.customAlias = some a)
    (hre : matchesAliasRe (pyLower a) = true)
    (hlen : ¬ (pyLen (pyLower a) < 3))
    (hres : isReserved (pyLower a) = false)
    (hav : dbGet st (pyLower a) = none) :
    shorten_url env fuel st (some d) = finishCreate env st d lu (pyLower a) := by
  have ha' : a ≠ "" := matchesAliasRe_ne_empty a hre
  have htrl : truthy d.longUrl = true := by rw [hlu]; simp [truthy, hlu2]
  have htra : truthy d.customAlias = true := by rw [ha]; simp [truthy, ha']
  have hav' : is_short_code_available st (pyLower a) = true := by
    unfold is_short_code_available
    rw [hav]
    rfl
  have htrl' : truthy (some lu) = true := by simp [truthy, hlu2]
  have htra' : truthy (some a) = true := by simp [truthy, ha']
  simp [shorten_url, htrl, htra, htrl', htra', ha, hlu, hre, hres, hav', hlen]

theorem finishCreate_plain (env : Env) (st : Store) (d : ShortenReq) (lu code : String)
    (hpw : d.linkPassword = none) (hexp : d.expirationDate = none) :
    finishCreate env st d lu code =
      (.ok (BASE_URL ++ "/" ++ code) false,
        storeSet st code
          { long_url := lu, short_code := code, user_id := d.userId, clicks := 0,
            created_at := env.nowUtc, password_hash := none, is_protected := false,
            expires_at := none }) := by
  simp [finishCreate, hpw, hexp, parseExpiration, truthy]

/-! ## C1 -/

/-- C1 (counterexample): the alias `ABC` satisfies all the claimed rules
after lower-casing, and create succeeds — but it returns the lower-cased
short URL `/abc`, not `/ABC`, and resolving the submitted alias `ABC`
verbatim afterwards yields NotFound (lookup is case-sensitive and the
record was stored under `abc`). -/
theorem claim1_counterexample :
    (shorten_url envPlain 0 []
        (some { longUrl := some "http://example.com", customAlias := some "ABC" })).1 =
      .ok "http://localhost:5000/abc" false ∧
    "http://localhost:5000/abc" ≠ "http://localhost:5000/ABC" ∧
    (redirect_to_long_url envPlain
        (shorten_url envPlain 0 []
          (some { longUrl := some "http://example.com", customAlias := some "ABC" })).2
        "ABC").1 =
      .notFound := by
  refine ⟨rfl, by decide, rfl⟩

/-- C1 (amended): for every custom alias whose lower-cased form matches
the charset rule, has length at least 3, is not reserved and is free, and
every nonempty long URL, an unprotected, non-expiring create succeeds
returning base URL + `/` + the lower-cased alias with `isProtected =
false`, and a subsequent resolve of the lower-cased alias returns a
Redirect carrying exactly the submitted long URL. -/
theorem claim1_amended (env : Env) (fuel : Nat) (st : Store) (d : ShortenReq)
    (a lu : String)
    (hlu : d.longUrl = some lu) (hlu2 : lu ≠ "")
    (ha : d.customAlias = some a)
    (hre : matchesAliasRe (pyLower a) = true)
    (hlen : ¬ (pyLen (pyLower a) < 3))
    (hres : isReserved (pyLower a) = false)
    (hav : dbGet st (pyLower a) = none)
    (hpw : d.linkPassword = none)
    (hexp : d.expirationDate = none) :
    (shorten_url env fuel st (some d)).1 = .ok (BASE_URL ++ "/" ++ pyLower a) false ∧
    (redirect_to_long_url env (shorten_url env fuel st (some d)).2 (pyLower a)).1 =
      .redirect lu := by
  rw [shorten_custom_ok env fuel st d a lu hlu hlu2 ha hre hlen hres hav,
    finishCreate_plain env st d lu (pyLower a) hpw hexp]
  refine ⟨rfl, ?_⟩
  have hfix : pyLower (pyLower a) = pyLower a := pyLower_of_matches (pyLower a) hre
  have hget :
      dbGet (storeSet st (pyLower a)
        { long_url := lu, short_code := pyLower a, user_id := d.userId, clicks := 0,
          created_at := env.nowUtc, password_hash := none, is_protected := false,
          expires_at := none }) (pyLower a) =
      some { long_url := lu, short_code := pyLower a, user_id := d.userId, clicks := 0,
             created_at := env.nowUtc, password_hash := none, is_protected := false,
             expires_at := none } := by
    rw [dbGet_storeSet, if_pos rfl]
  simp [redirect_to_long_url, hfix, hres, hget, expiredNow]

/-- Witness for C1 (amended) at the alias `promo` over the empty store. -/
theorem claim1_amended_witness :
    (shorten_url envPlain 0 []
        (some { longUrl := some "http://example.com", customAlias := some "promo" })).1 =
      .ok (BASE_URL ++ "/" ++ pyLower "promo") false ∧
    (redirect_to_long_url envPlain
        (shorten_url envPlain 0 []
          (some { longUrl := some "http://example.com", customAlias := some "promo" })).2
        (pyLower "promo")).1 =
      .redirect "http://example.com" :=
  claim1_amended envPlain 0 []
    { longUrl := some "http://example.com", customAlias := some "promo" }
    "promo" "http://example.com" rfl (by decide) rfl (by decide) (by decide)
    (by decide) rfl rfl rfl

/-! ## C3 -/

/-- Environment whose ISO parser recognizes one concrete timezone-aware
ISO-8601 timestamp (midnight 2025-01-01 UTC). -/
def envAwareParse : Env :=
  { nowUtc := 0
    randGen := fun _ => "aaaaaa"
    genHash := fun p => p
    checkHash := fun _ _ => false
    parseIso := fun s =>
      if s == "2025-01-01T00:00:00+00:00" then some { wall := 1735689600, tz := some 0 }
      else none }

/-- C3 (counterexample): a timezone-aware ISO-8601 `expirationDate`
parses via `fromisoformat`, but `IST.localize` then raises `ValueError`
on the already-aware datetime, so the otherwise valid create request is
rejected with the 400 invalid-format error and nothing is persisted —
contradicting "timezone-aware forms are parsed successfully and the
expiry is stored as UTC". -/
theorem claim3_counterexample :
    envAwareParse.parseIso "2025-01-01T00:00:00+00:00" =
      some { wall := 1735689600, tz := some 0 } ∧
    (shorten_url envAwareParse 0 []
        (some { longUrl := some "http://example.com", customAlias := some "promo",
                expirationDate := some "2025-01-01T00:00:00+00:00" })).1 =
      .badRequest "Invalid expiration date format." ∧
    (shorten_url envAwareParse 0 []
        (some { longUrl := some "http://example.com", customAlias := some "promo",
                expirationDate := some "2025-01-01T00:00:00+00:00" })).2 = [] := by
  refine ⟨rfl, rfl, rfl⟩

/-- C3 (amended): on an otherwise valid create with `expirationDate = s`:
an unparseable `s` fails with the 400 invalid-format error and no record;
a naive ISO timestamp is accepted and the expiry is stored localized to
IST (offset +05:30 attached to the wall reading — interpreted as IST wall
time, not as UTC); a timezone-aware ISO timestamp is rejected with the
same 400 error because `IST.localize` raises `ValueError` on aware
datetimes. -/
theorem claim3_amended (env : Env) (fuel : Nat) (st : Store) (d : ShortenReq)
    (a lu s : String)
    (hlu : d.longUrl = some lu) (hlu2 : lu ≠ "")
    (ha : d.customAlias = some a)
    (hre : matchesAliasRe (pyLower a) = true)
    (hlen : ¬ (pyLen (pyLower a) < 3))
    (hres : isReserved (pyLower a) = false)
    (hav : dbGet st (pyLower a) = none)
    (hexp : d.expirationDate = some s) (hs : s ≠ "") :
    (env.parseIso s = none →
      shorten_url env fuel st (some d) =
        (.badRequest "Invalid expiration date format.", st)) ∧
    (∀ w : Int, env.parseIso s = some { wall := w, tz := none } →
      (shorten_url env fuel st (some d)).1 =
        .ok (BASE_URL ++ "/" ++ pyLower a) (truthy d.linkPassword) ∧
      (dbGet (shorten_url env fuel st (some d)).2 (pyLower a)).map Link.expires_at =
        some (some { wall := w, tz := some istOffset })) ∧
    (∀ w o : Int, env.parseIso s = some { wall := w, tz := some o } →
      shorten_url env fuel st (some d) =
        (.badRequest "Invalid expiration date format.", st)) := by
  rw [shorten_custom_ok env fuel st d a lu hlu hlu2 ha hre hlen hres hav]
  have hts : truthy (some s) = true := by simp [truthy, hs]
  refine ⟨?_, ?_, ?_⟩
  · intro hparse
    simp [finishCreate, parseExpiration, hexp, hts, hparse]
  · intro w hparse
    have hpe : parseExpiration env d.expirationDate =
        .ok (some { wall := w, tz := some istOffset }) := by
      simp [parseExpiration, hexp, hts, hparse, istLocalize]
    refine ⟨?_, ?_⟩
    · simp [finishCreate, hpe]
    · simp only [finishCreate, hpe]
      rw [dbGet_storeSet, if_pos rfl]
      rfl
  · intro w o hparse
    simp [finishCreate, parseExpiration, hexp, hts, hparse, istLocalize]

/-- Environment whose ISO parser recognizes one concrete naive ISO-8601
timestamp (wall reading 1000, no timezone). -/
def envNaiveParse : Env :=
  { nowUtc := 0
    randGen := fun _ => "aaaaaa"
    genHash := fun p => p
    checkHash := fun _ _ => false
    parseIso := fun s =>
      if s == "2025-01-01T00:00:00" then some { wall := 1000, tz := none } else none }

/-- Witness for C3 (amended): a naive timestamp accepted and stored with
the IST offset attached. -/
theorem claim3_amended_witness :
    (envNaiveParse.parseIso "2025-01-01T00:00:00" = none →
      shorten_url envNaiveParse 0 []
          (some { longUrl := some "http://example.com", customAlias := some "promo",
                  expirationDate := some "2025-01-01T00:00:00" }) =
        (.badRequest "Invalid expiration date format.", [])) ∧
    (∀ w : Int,
      envNaiveParse.parseIso "2025-01-01T00:00:00" = some { wall := w, tz := none } →
      (shorten_url envNaiveParse 0 []
          (some { longUrl := some "http://example.com", customAlias := some "promo",
                  expirationDate := some "2025-01-01T00:00:00" })).1 =
        .ok (BASE_URL ++ "/" ++ pyLower "promo")
          (truthy (ShortenReq.linkPassword
            { longUrl := some "http://example.com", customAlias := some "promo",
              expirationDate := some "2025-01-01T00:00:00" })) ∧
      (dbGet (shorten_url envNaiveParse 0 []
          (some { longUrl := some "http://example.com", customAlias := some "promo",
                  expirationDate := some "2025-01-01T00:00:00" })).2
        (pyLower "promo")).map Link.expires_at =
        some (some { wall := w, tz := some istOffset })) ∧
    (∀ w o : Int,
      envNaiveParse.parseIso "2025-01-01T00:00:00" = some { wall := w, tz := some o } →
      shorten_url envNaiveParse 0 []
          (some { longUrl := some "http://example.com", customAlias := some "promo",
                  expirationDate := some "2025-01-01T00:00:00" }) =
        (.badRequest "Invalid expiration date format.", [])) :=
  claim3_amended envNaiveParse 0 []
    { longUrl := some "http://example.com", customAlias := some "promo",
      expirationDate := some "2025-01-01T00:00:00" }
    "promo" "http://example.com" "2025-01-01T00:00:00"
    rfl (by decide) rfl (by decide) (by decide) (by decide) rfl rfl (by decide)

/-! ## C4 -/

/-- Python `str.lower` maps U+212A KELVIN SIGN (codepoint 8490) to ASCII
`k`; `pyLower` agrees, so a three-Kelvin-sign alias lower-cases to `kkk`
and passes the line-72 regex, exactly as in the running program. -/
theorem pyLower_kelvin_sign :
    pyLower (String.mk [Char.ofNat 8490, Char.ofNat 8490, Char.ofNat 8490]) = "kkk" ∧
    matchesAliasRe
      (pyLower (String.mk [Char.ofNat 8490, Char.ofNat 8490, Char.ofNat 8490])) = true := by
  refine ⟨by decide, by decide⟩

/-- C4 (counterexample): the alias `ABC` followed by a newline lower-cases
to `abc` + newline, whose final character lies outside the charset
`[a-z0-9_-]` — yet Python `re.match` of `^[a-z0-9_-]+$` accepts it,
because `$` also matches before one string-final newline: the create
succeeds (HTTP 200) and persists a record under the newline-carrying key,
instead of failing with ValidationError 400 and leaving the store
unchanged as the claim requires for charset-violating aliases. -/
theorem claim4_counterexample :
    '\n' ∈ (pyLower "ABC\n").data ∧
    aliasChar '\n' = false ∧
    matchesAliasRe (pyLower "ABC\n") = true ∧
    (shorten_url envPlain 0 []
        (some { longUrl := some "http://example.com", customAlias := some "ABC\n" })).1 =
      .ok "http://localhost:5000/abc\n" false ∧
    dbGet (shorten_url envPlain 0 []
        (some { longUrl := some "http://example.com", customAlias := some "ABC\n" })).2
        "abc\n" =
      some { long_url := "http://example.com", short_code := "abc\n", user_id := none,
             clicks := 0, created_at := 50, password_hash := none, is_protected := false,
             expires_at := none } := by
  refine ⟨by decide, by decide, by decide, rfl, rfl⟩

/-- C4 (amended): on a create request with a custom alias and a present
long URL, each validation failure of the lower-cased alias — failing the
charset check as the code implements it (Python `re.match` of
`^[a-z0-9_-]+$`, which also accepts one trailing newline), reserved word,
length below 3 — answers the corresponding 400 error, an alias that
passes validation but is already present answers the 409 conflict, and in
every one of these failure cases the store is returned unchanged: no
record is persisted and no record is overwritten. -/
theorem claim4_alias_failures (env : Env) (fuel : Nat) (st : Store) (d : ShortenReq)
    (a lu : String)
    (hlu : d.longUrl = some lu) (hlu2 : lu ≠ "")
    (ha : d.customAlias = some a) (ha2 : a ≠ "") :
    (matchesAliasRe (pyLower a) = false →
      shorten_url env fuel st (some d) =
        (.badRequest "Custom alias can only contain lowercase letters, numbers, hyphens, and underscores.", st)) ∧
    (matchesAliasRe (pyLower a) = true → isReserved (pyLower a) = true →
      shorten_url env fuel st (some d) =
        (.badRequest ("The alias /" ++ pyLower a ++ " is reserved and cannot be used. Please choose another."), st)) ∧
    (matchesAliasRe (pyLower a) = true → isReserved (pyLower a) = false →
      pyLen (pyLower a) < 3 →
      shorten_url env fuel st (some d) =
        (.badRequest "Custom alias must be at least 3 characters long.", st)) ∧
    (matchesAliasRe (pyLower a) = true → isReserved (pyLower a) = false →
      ¬ (pyLen (pyLower a) < 3) → (dbGet st (pyLower a)).isSome = true →
      shorten_url env fuel st (some d) =
        (.conflict ("The custom alias /" ++ pyLower a ++ " is already taken. Please choose another."), st)) := by
  have htrl : truthy d.longUrl = true := by rw [hlu]; simp [truthy, hlu2]
  have htra : truthy d.customAlias = true := by rw [ha]; simp [truthy, ha2]
  have htrl' : truthy (some lu) = true := by simp [truthy, hlu2]
  have htra' : truthy (some a) = true := by simp [truthy, ha2]
  refine ⟨?_, ?_, ?_, ?_⟩
  · intro hre
    simp [shorten_url, htrl, htra, htrl', htra', ha, hlu, hre]
  · intro hre hres
    simp [shorten_url, htrl, htra, htrl', htra', ha, hlu, hre, hres]
  · intro hre hres hlen
    simp [shorten_url, htrl, htra, htrl', htra', ha, hlu, hre, hres, hlen]
  · intro hre hres hlen htaken
    have hav : is_short_code_available st (pyLower a) = false := by
      unfold is_short_code_available
      cases hdb : dbGet st (pyLower a) with
      | none => rw [hdb] at htaken; simp at htaken
      | some l => rfl
    simp [shorten_url, htrl, htra, htrl', htra', ha, hlu, hre, hres, hlen, hav]

/-- Witness for C4 at the reserved alias `app` and the taken alias
`taken1` over a one-record store. -/
theorem claim4_alias_failures_witness :
    (matchesAliasRe (pyLower "app") = false →
      shorten_url envPlain 0 [("taken1", linkPlain)]
          (some { longUrl := some "http://example.com", customAlias := some "app" }) =
        (.badRequest "Custom alias can only contain lowercase letters, numbers, hyphens, and underscores.", [("taken1", linkPlain)])) ∧
    (matchesAliasRe (pyLower "app") = true → isReserved (pyLower "app") = true →
      shorten_url envPlain 0 [("taken1", linkPlain)]
          (some { longUrl := some "http://example.com", customAlias := some "app" }) =
        (.badRequest ("The alias /" ++ pyLower "app" ++ " is reserved and cannot be used. Please choose another."), [("taken1", linkPlain)])) ∧
    (matchesAliasRe (pyLower "app") = true → isReserved (pyLower "app") = false →
      pyLen (pyLower "app") < 3 →
      shorten_url envPlain 0 [("taken1", linkPlain)]
          (some { longUrl := some "http://example.com", customAlias := some "app" }) =
        (.badRequest "Custom alias must be at least 3 characters long.", [("taken1", linkPlain)])) ∧
    (matchesAliasRe (pyLower "app") = true → isReserved (pyLower "app") = false →
      ¬ (pyLen (pyLower "app") < 3) →
      (dbGet [("taken1", linkPlain)] (pyLower "app")).isSome = true →
      shorten_url envPlain 0 [("taken1", linkPlain)]
          (some { longUrl := some "http://example.com", customAlias := some "app" }) =
        (.conflict ("The custom alias /" ++ pyLower "app" ++ " is already taken. Please choose another."), [("taken1", linkPlain)])) :=
  claim4_alias_failures envPlain 0 [("taken1", linkPlain)]
    { longUrl := some "http://example.com", customAlias := some "app" }
    "app" "http://example.com" rfl (by decide) rfl (by decide)

/-! ## C6 -/

/-- C6 (counterexample): a request body that is not valid JSON makes
`request.get_json(silent=True)` yield `None`, and the handler then calls
`.get` on `None`, raising an unhandled `AttributeError` (HTTP 500) — not
the claimed ValidationError 400. -/
theorem claim6_counterexample :
    (verify_password envPlain [] none).1 = .crash ∧
    VerifyResult.crash ≠ .badRequest "Missing short code or password." := by
  refine ⟨rfl, by decide⟩

/-- C6 (amended): a non-JSON body crashes with an unhandled
`AttributeError` (HTTP 500); a missing or empty short code or password
fails 400; an unknown short code fails 404; and when no password hash is
stored or the hash comparison fails, the outcome is the same 401
unauthorized failure in both cases — revealing nothing about which check
failed — with the store unchanged (no click increment).  Every failure
leaves the store unchanged. -/
theorem claim6_amended (env : Env) (st : Store) (d : VerifyReq) :
    (verify_password env st none = (.crash, st)) ∧
    (truthy d.shortCode = false ∨ truthy d.password = false →
      verify_password env st (some d) = (.badRequest "Missing short code or password.", st)) ∧
    (truthy d.shortCode = true → truthy d.password = true →
      dbGet st (d.shortCode.getD "") = none →
      verify_password env st (some d) = (.notFound "Link not found.", st)) ∧
    (∀ link : Link, truthy d.shortCode = true → truthy d.password = true →
      dbGet st (d.shortCode.getD "") = some link →
      (truthy link.password_hash = false ∨
        env.checkHash (link.password_hash.getD "") (d.password.getD "") = false) →
      verify_password env st (some d) = (.invalidPassword, st)) := by
  refine ⟨rfl, ?_, ?_, ?_⟩
  · intro h
    cases h with
    | inl h => simp [verify_password, h]
    | inr h => simp [verify_password, h]
  · intro hsc hpw hdb
    simp [verify_password, hsc, hpw, hdb]
  · intro link hsc hpw hdb hfail
    cases hfail with
    | inl h => simp [verify_password, hsc, hpw, hdb, h]
    | inr h => simp [verify_password, hsc, hpw, hdb, h]

/-- Witness for C6 (amended) on a protected stored link and a wrong
password. -/
theorem claim6_amended_witness :
    (verify_password envVerify [("pex", linkProtExp)] none =
      (.crash, [("pex", linkProtExp)])) ∧
    (truthy (VerifyReq.shortCode { shortCode := some "pex", password := some "nope" }) = false ∨
      truthy (VerifyReq.password { shortCode := some "pex", password := some "nope" }) = false →
      verify_password envVerify [("pex", linkProtExp)]
          (some { shortCode := some "pex", password := some "nope" }) =
        (.badRequest "Missing short code or password.", [("pex", linkProtExp)])) ∧
    (truthy (VerifyReq.shortCode { shortCode := some "pex", password := some "nope" }) = true →
      truthy (VerifyReq.password { shortCode := some "pex", password := some "nope" }) = true →
      dbGet [("pex", linkProtExp)]
        ((VerifyReq.shortCode { shortCode := some "pex", password := some "nope" }).getD "") = none →
      verify_password envVerify [("pex", linkProtExp)]
          (some { shortCode := some "pex", password := some "nope" }) =
        (.notFound "Link not found.", [("pex", linkProtExp)])) ∧
    (∀ link : Link,
      truthy (VerifyReq.shortCode { shortCode := some "pex", password := some "nope" }) = true →
      truthy (VerifyReq.password { shortCode := some "pex", password := some "nope" }) = true →
      dbGet [("pex", linkProtExp)]
        ((VerifyReq.shortCode { shortCode := some "pex", password := some "nope" }).getD "") =
        some link →
      (truthy link.password_hash = false ∨
        envVerify.checkHash (link.password_hash.getD "")
          ((VerifyReq.password { shortCode := some "pex", password := some "nope" }).getD "") = false) →
      verify_password envVerify [("pex", linkProtExp)]
          (some { shortCode := some "pex", password := some "nope" }) =
        (.invalidPassword, [("pex", linkProtExp)])) :=
  claim6_amended envVerify [("pex", linkProtExp)]
    { shortCode := some "pex", password := some "nope" }

/-! ## C7 -/

/-- Environment whose candidate stream constantly draws the already-taken
code `aaaaaa`. -/
def envLoop : Env :=
  { nowUtc := 0
    randGen := fun _ => "aaaaaa"
    genHash := fun p => p
    checkHash := fun _ _ => false
    parseIso := fun _ => none }

/-- C7 (counterexample): in a storage state where the 6-character
alphanumeric code `bbbbbb` is free, a candidate stream that keeps drawing
the taken code `aaaaaa` (a legal output of `generate_random_code`) makes
the retry loop spin forever: after any number of attempts it has produced
no code, and the implementation has no attempt cap and no fallback to a
longer code. -/
theorem claim7_counterexample :
    (∀ fuel i, pickCodeFrom envLoop [("aaaaaa", linkPlain)] i fuel = none) ∧
    isReserved "bbbbbb" = false ∧
    dbGet [("aaaaaa", linkPlain)] "bbbbbb" = none ∧
    pyLen "bbbbbb" = 6 ∧
    "bbbbbb".data.all Char.isAlphanum = true ∧
    pyLen "aaaaaa" = 6 ∧
    "aaaaaa".data.all Char.isAlphanum = true := by
    refine ⟨?_, by decide, rfl, by decide, by decide, by decide, by decide⟩
    intro fuel
    induction fuel with
    | zero => intro i; rfl
    | succ n ih =>
      intro i
      simp only [pickCodeFrom, show envLoop.randGen i = "aaaaaa" from rfl]
      rw [if_neg (by decide)]
      exact ih (i + 1)

/-- The retry loop does find a code once the candidate stream reaches an
acceptable draw. -/
theorem pickCodeFrom_complete (env : Env) (st : Store) :
    ∀ k start,
      (isReserved (env.randGen (start + k)) = false ∧
        dbGet st (env.randGen (start + k)) = none) →
      ∃ c, pickCodeFrom env st start (k + 1) = some c := by
  intro k
  induction k with
  | zero =>
    intro start h
    refine ⟨env.randGen start, ?_⟩
    have hc : (!(isReserved (env.randGen start)) &&
        is_short_code_available st (env.randGen start)) = true := by
      rw [Nat.add_zero] at h
      simp [h.1, is_short_code_available, h.2]
    simp [pickCodeFrom, hc]
  | succ n ih =>
    intro start h
    by_cases hc : (!(isReserved (env.randGen start)) &&
        is_short_code_available st (env.randGen start)) = true
    · refine ⟨env.randGen start, ?_⟩
      simp [pickCodeFrom, hc]
    · have hshift : (isReserved (env.randGen ((start + 1) + n)) = false ∧
          dbGet st (env.randGen ((start + 1) + n)) = none) := by
        have : (start + 1) + n = start + (n + 1) := by omega
        rw [this]
        exact h
      obtain ⟨c, hcc⟩ := ih (start + 1) hshift
      refine ⟨c, ?_⟩
      simp only [pickCodeFrom]
      rw [if_neg hc]
      exact hcc

/-- C7 (amended): the retry loop of `shorten_url` is unbounded — it has
no attempt cap and no longer-code fallback — and it terminates exactly
when the random candidate stream eventually draws a code that is neither
reserved nor taken: under that assumption some finite number of
iterations returns such a code. -/
theorem claim7_amended (env : Env) (st : Store)
    (h : ∃ i, isReserved (env.randGen i) = false ∧ dbGet st (env.randGen i) = none) :
    ∃ fuel c, pickCodeFrom env st 0 fuel = some c ∧
      isReserved c = false ∧ dbGet st c = none := by
  obtain ⟨i, hi⟩ := h
  have h0 : isReserved (env.randGen (0 + i)) = false ∧
      dbGet st (env.randGen (0 + i)) = none := by
    rw [Nat.zero_add]
    exact hi
  obtain ⟨c, hc⟩ := pickCodeFrom_complete env st i 0 h0
  exact ⟨i + 1, c, hc, pickCodeFrom_sound env st (i + 1) 0 c hc⟩

/-- Witness for C7 (amended) over the empty store. -/
theorem claim7_amended_witness :
    ∃ fuel c, pickCodeFrom envPlain [] 0 fuel = some c ∧
      isReserved c = false ∧ dbGet [] c = none :=
  claim7_amended envPlain [] ⟨0, by decide, rfl⟩

/-! ## C8 -/

/-- C8: the dashboard listing contains exactly the stored records whose
`user_id` equals the requested user (as a permutation of their
projections), is sorted by `created_at` descending, and is the empty list
when the user has no links. -/
theorem claim8_list_by_user (st : Store) (uid : String) :
    List.Perm (get_user_links st uid)
      ((st.filter (fun p => p.2.user_id == some uid)).map summarize) ∧
    List.Sorted createdDesc (get_user_links st uid) ∧
    (st.filter (fun p => p.2.user_id == some uid) = [] → get_user_links st uid = []) := by
  refine ⟨?_, ?_, ?_⟩
  · exact List.perm_insertionSort createdDesc _
  · exact List.sorted_insertionSort createdDesc _
  · intro h
    unfold get_user_links
    rw [h]
    rfl

/-- A link of user `u1` created at instant 10. -/
def linkU1a : Link :=
  { long_url := "http://a.example", short_code := "aa1", user_id := some "u1",
    clicks := 2, created_at := 10, password_hash := none, is_protected := false,
    expires_at := none }

/-- A link of user `u1` created at instant 20. -/
def linkU1b : Link :=
  { long_url := "http://b.example", short_code := "bb2", user_id := some "u1",
    clicks := 0, created_at := 20, password_hash := none, is_protected := false,
    expires_at := none }

/-- A link of user `u2`. -/
def linkU2 : Link :=
  { long_url := "http://c.example", short_code := "cc3", user_id := some "u2",
    clicks := 7, created_at := 15, password_hash := none, is_protected := false,
    expires_at := none }

/-- Witness for C8 on a three-record store with two users. -/
theorem claim8_list_by_user_witness :
    List.Perm
      (get_user_links [("aa1", linkU1a), ("cc3", linkU2), ("bb2", linkU1b)] "u1")
      (([("aa1", linkU1a), ("cc3", linkU2), ("bb2", linkU1b)].filter
          (fun p => p.2.user_id == some "u1")).map summarize) ∧
    List.Sorted createdDesc
      (get_user_links [("aa1", linkU1a), ("cc3", linkU2), ("bb2", linkU1b)] "u1") ∧
    ([("aa1", linkU1a), ("cc3", linkU2), ("bb2", linkU1b)].filter
        (fun p => p.2.user_id == some "u1") = [] →
      get_user_links [("aa1", linkU1a), ("cc3", linkU2), ("bb2", linkU1b)] "u1" = []) :=
  claim8_list_by_user [("aa1", linkU1a), ("cc3", linkU2), ("bb2", linkU1b)] "u1"

/-! ## C2 -/

theorem finishCreate_store (env : Env) (st : Store) (d : ShortenReq) (lu code : String) :
    (finishCreate env st d lu code).2 = st ∨
    ∃ link, (finishCreate env st d lu code).2 = storeSet st code link := by
  cases hpe : parseExpiration env d.expirationDate with
  | error u => left; simp [finishCreate, hpe]
  | ok expOpt =>
    right
    refine ⟨{ long_url := lu, short_code := code, user_id := d.userId, clicks := 0,
              created_at := env.nowUtc,
              password_hash :=
                if truthy d.linkPassword then
                  some (env.genHash (d.linkPassword.getD "")) else none,
              is_protected := truthy d.linkPassword, expires_at := expOpt }, ?_⟩
    simp [finishCreate, hpe]

theorem shorten_store_cases (env : Env) (fuel : Nat) (st : Store)
    (data : Option ShortenReq) :
    (shorten_url env fuel st data).2 = st ∨
    ∃ code link, dbGet st code = none ∧
      (shorten_url env fuel st data).2 = storeSet st code link := by
  cases data with
  | none => left; rfl
  | some d =>
    cases h1 : truthy d.longUrl with
    | false => left; simp [shorten_url, h1]
    | true =>
      cases h2 : truthy d.customAlias with
      | true =>
        cases h3 : matchesAliasRe (pyLower (d.customAlias.getD "")) with
        | false => left; simp [shorten_url, h1, h2, h3]
        | true =>
          cases h4 : isReserved (pyLower (d.customAlias.getD "")) with
          | true => left; simp [shorten_url, h1, h2, h3, h4]
          | false =>
            by_cases h5 : pyLen (pyLower (d.customAlias.getD "")) < 3
            · left; simp [shorten_url, h1, h2, h3, h4, h5]
            · cases h6 : is_short_code_available st (pyLower (d.customAlias.getD "")) with
              | false => left; simp [shorten_url, h1, h2, h3, h4, h5, h6]
              | true =>
                have hav : dbGet st (pyLower (d.customAlias.getD "")) = none := by
                  unfold is_short_code_available at h6
                  exact Option.isNone_iff_eq_none.mp h6
                have heq : (shorten_url env fuel st (some d)).2 =
                    (finishCreate env st d (d.longUrl.getD "")
                      (pyLower (d.customAlias.getD ""))).2 := by
                  simp [shorten_url, h1, h2, h3, h4, h5, h6]
                rcases finishCreate_store env st d (d.longUrl.getD "")
                    (pyLower (d.customAlias.getD "")) with h | ⟨link, hl⟩
                · left; rw [heq, h]
                · right; exact ⟨_, link, hav, by rw [heq, hl]⟩
      | false =>
        cases hpick : pickCodeFrom env st 0 fuel with
        | none => left; simp [shorten_url, h1, h2, hpick]
        | some code =>
          have hs := pickCodeFrom_sound env st fuel 0 code hpick
          have heq : (shorten_url env fuel st (some d)).2 =
              (finishCreate env st d (d.longUrl.getD "") code).2 := by
            simp [shorten_url, h1, h2, hpick]
          rcases finishCreate_store env st d (d.longUrl.getD "") code with h | ⟨link, hl⟩
          · left; rw [heq, h]
          · right; exact ⟨code, link, hs.2, by rw [heq, hl]⟩

/-- C2 (amended): across every operation of the system, a surviving
record's `clicks` counter never decreases, and it changes only by +1 and
only when the operation was a successful anonymous redirect of that code
or a successful password verification for it.  (`verify_password`
performs no expiration check, so a correct-password verification does
increment `clicks` even on a link whose `expires_at` is past — see the
counterexample.) -/
theorem claim2_amended (env : Env) (st : Store) (op : Op) (key : String) (l l' : Link)
    (h1 : dbGet st key = some l)
    (h2 : dbGet (applyOp env st op) key = some l') :
    l.clicks ≤ l'.clicks ∧
    (l'.clicks = l.clicks ∨
      (l'.clicks = l.clicks + 1 ∧
        ((op = .redirectOp key ∧
            (redirect_to_long_url env st key).1 = .redirect l.long_url) ∨
          (∃ d : VerifyReq, op = .verifyOp (some d) ∧
            (verify_password env st (some d)).1 = .ok l.long_url)))) := by
  cases op with
  | listOp uid =>
    have happ : applyOp env st (.listOp uid) = st := rfl
    rw [happ, h1] at h2
    cases h2
    exact ⟨le_refl _, Or.inl rfl⟩
  | deleteOp c =>
    have happ : applyOp env st (.deleteOp c) = eraseKey st c := rfl
    rw [happ, dbGet_eraseKey] at h2
    by_cases hkc : key = c
    · rw [if_pos hkc] at h2
      exact Option.noConfusion h2
    · rw [if_neg hkc, h1] at h2
      cases h2
      exact ⟨le_refl _, Or.inl rfl⟩
  | shortenOp fuel data =>
    rcases shorten_store_cases env fuel st data with h | ⟨code, link, hav, hset⟩
    · have happ : applyOp env st (.shortenOp fuel data) = st := h
      rw [happ, h1] at h2
      cases h2
      exact ⟨le_refl _, Or.inl rfl⟩
    · have happ : applyOp env st (.shortenOp fuel data) = storeSet st code link := hset
      rw [happ, dbGet_storeSet] at h2
      by_cases hkc : key = code
      · rw [hkc, hav] at h1
        exact Option.noConfusion h1
      · rw [if_neg hkc, h1] at h2
        cases h2
        exact ⟨le_refl _, Or.inl rfl⟩
  | redirectOp c =>
    cases hr : isReserved (pyLower c) with
    | true =>
      have happ : applyOp env st (.redirectOp c) = st := by
        simp [applyOp, redirect_to_long_url, hr]
      rw [happ, h1] at h2
      cases h2
      exact ⟨le_refl _, Or.inl rfl⟩
    | false =>
      cases hget : dbGet st c with
      | none =>
        have happ : applyOp env st (.redirectOp c) = st := by
          simp [applyOp, redirect_to_long_url, hr, hget]
        rw [happ, h1] at h2
        cases h2
        exact ⟨le_refl _, Or.inl rfl⟩
      | some data =>
        cases hex : expiredNow env data with
        | true =>
          have happ : applyOp env st (.redirectOp c) = st := by
            simp [applyOp, redirect_to_long_url, hr, hget, hex]
          rw [happ, h1] at h2
          cases h2
          exact ⟨le_refl _, Or.inl rfl⟩
        | false =>
          cases hprot : data.is_protected with
          | true =>
            have happ : applyOp env st (.redirectOp c) = st := by
              simp [applyOp, redirect_to_long_url, hr, hget, hex, hprot]
            rw [happ, h1] at h2
            cases h2
            exact ⟨le_refl _, Or.inl rfl⟩
          | false =>
            have happ : applyOp env st (.redirectOp c) = incClicks st c := by
              simp [applyOp, redirect_to_long_url, hr, hget, hex, hprot]
            rw [happ, dbGet_incClicks] at h2
            by_cases hkc : key = c
            · rw [if_pos hkc] at h2
              rw [hkc] at h1 h2
              rw [h1] at h2
              simp only [Option.map_some'] at h2
              cases h2
              have hdl : data = l := by
                rw [hget] at h1
                exact Option.some.inj h1
              refine ⟨Nat.le_succ _, Or.inr ⟨rfl, Or.inl ⟨by rw [hkc], ?_⟩⟩⟩
              rw [hkc]
              simp [redirect_to_long_url, hr, hget, ← hdl, hex, hprot]
            · rw [if_neg hkc, h1] at h2
              cases h2
              exact ⟨le_refl _, Or.inl rfl⟩
  | verifyOp data =>
    cases data with
    | none =>
      have happ : applyOp env st (.verifyOp none) = st := rfl
      rw [happ, h1] at h2
      cases h2
      exact ⟨le_refl _, Or.inl rfl⟩
    | some d =>
      cases hcond : (!(truthy d.shortCode) || !(truthy d.password)) with
      | true =>
        have happ : applyOp env st (.verifyOp (some d)) = st := by
          simp [applyOp, verify_password, hcond]
        rw [happ, h1] at h2
        cases h2
        exact ⟨le_refl _, Or.inl rfl⟩
      | false =>
        cases hget : dbGet st (d.shortCode.getD "") with
        | none =>
          have happ : applyOp env st (.verifyOp (some d)) = st := by
            simp [applyOp, verify_password, hcond, hget]
          rw [happ, h1] at h2
          cases h2
          exact ⟨le_refl _, Or.inl rfl⟩
        | some link =>
          cases hck : (truthy link.password_hash &&
              env.checkHash (link.password_hash.getD "") (d.password.getD "")) with
          | false =>
            have happ : applyOp env st (.verifyOp (some d)) = st := by
              simp [applyOp, verify_password, hcond, hget, hck]
            rw [happ, h1] at h2
            cases h2
            exact ⟨le_refl _, Or.inl rfl⟩
          | true =>
            have happ : applyOp env st (.verifyOp (some d)) =
                incClicks st (d.shortCode.getD "") := by
              simp [applyOp, verify_password, hcond, hget, hck]
            rw [happ, dbGet_incClicks] at h2
            by_cases hkc : key = d.shortCode.getD ""
            · rw [if_pos hkc] at h2
              rw [hkc] at h1 h2
              rw [h1] at h2
              simp only [Option.map_some'] at h2
              cases h2
              have hdl : link = l := by
                rw [hget] at h1
                exact Option.some.inj h1
              refine ⟨Nat.le_succ _, Or.inr ⟨rfl, Or.inr ⟨d, rfl, ?_⟩⟩⟩
              have hck2 := hck
              rw [Bool.and_eq_true] at hck2
              simp [verify_password, hcond, hget, ← hdl, hck2.1, hck2.2]
            · rw [if_neg hkc, h1] at h2
              cases h2
              exact ⟨le_refl _, Or.inl rfl⟩

/-- Witness for C2 (amended): a successful anonymous redirect of
`aaaaaa` bumps its counter by exactly one. -/
theorem claim2_amended_witness :
    linkPlain.clicks ≤ (Link.clicks { linkPlain with clicks := 1 }) ∧
    ((Link.clicks { linkPlain with clicks := 1 }) = linkPlain.clicks ∨
      ((Link.clicks { linkPlain with clicks := 1 }) = linkPlain.clicks + 1 ∧
        ((Op.redirectOp "aaaaaa" = .redirectOp "aaaaaa" ∧
            (redirect_to_long_url envPlain [("aaaaaa", linkPlain)] "aaaaaa").1 =
              .redirect linkPlain.long_url) ∨
          (∃ d : VerifyReq, Op.redirectOp "aaaaaa" = .verifyOp (some d) ∧
            (verify_password envPlain [("aaaaaa", linkPlain)] (some d)).1 =
              .ok linkPlain.long_url)))) :=
  claim2_amended envPlain [("aaaaaa", linkPlain)] (.redirectOp "aaaaaa") "aaaaaa"
    linkPlain { linkPlain with clicks := 1 } rfl rfl

/-- C2 (counterexample): `verify_password` with the correct password on a
link whose `expires_at` is in the past does increment `clicks` — the
handler never consults the expiry on this path. -/
theorem claim2_counterexample :
    expiredNow envVerify linkProtExp = true ∧
    (verify_password envVerify [("pex", linkProtExp)]
        (some { shortCode := some "pex", password := some "pw" })).1 =
      .ok "http://secret.example" ∧
    dbGet (verify_password envVerify [("pex", linkProtExp)]
        (some { shortCode := some "pex", password := some "pw" })).2 "pex" =
      some { linkProtExp with clicks := 1 } := by
  refine ⟨rfl, rfl, rfl⟩
